import Mathlib

/-!
# Verification of the SovaUI audio engine (`src/services/audioService.ts`)

This file gives a shallow embedding of the audio-playback engine implemented
by the `AudioService` class and proves or refutes the frozen claims about it.

Modelling conventions:
* Times are natural numbers (milliseconds); `Date.now()` becomes an explicit
  `now` argument.  All subtractions `now - t` in the source compare a current
  time against an earlier timestamp, so truncated `Nat` subtraction agrees
  with JavaScript arithmetic on the states we consider.
* The queue entry `{audioData, sessionId, index, total}` is modelled by
  `Chunk`; only the length of `audioData` is observable in the control flow,
  so it is kept as `dataLen`.
* `Set<number>` (`sessionChunksSeen`) is modelled as a duplicate-free list in
  insertion order (`seenAdd` appends only when absent, exactly like
  `Set.add`).
* The asynchronous parts are modelled as an explicit event machine
  (`engineStep` / `runEngine`): a `submit` event executes the synchronous
  body of `playAudioResponse` including the synchronous prefix of
  `playSequentialQueue` (up to and including starting the first render);
  `renderDone` models an active source ending (natural `onended` or the
  forced timeout); `loopTick` models a sequential pass waking from its
  inter-chunk gap or backoff wait and iterating; `interrupt` and
  `stuckTimer` model the corresponding entry points.  A render that is
  started is recorded by appending the chunk index to `renders` and
  incrementing `activeSources` (the total size of `sessionAudioSources`);
  decoding is modelled as succeeding, which is the case relevant to the
  claims about rendering.
* Logging, the analytics substructures (`sessionState.turnHistory`,
  `performanceMetrics`) and the audio-context plumbing have no influence on
  the modelled control flow and are omitted.
-/

namespace AudioService

/-- Configuration values from the `config` object of `AudioService`
(only the ones the modelled control flow reads). -/
def maxQueueSize : Nat := 50

/-- `config.maxRetries`. -/
def maxRetries : Nat := 3

/-- `config.chunkDelay` (ms). -/
def chunkDelay : Nat := 10

/-- `config.sessionTimeout` (ms). -/
def sessionTimeout : Nat := 10000

/-- `config.chunkTimeout` (ms). -/
def chunkTimeout : Nat := 5000

/-- One entry of `audioQueue`: `{audioData, sessionId, index, total}` plus the
`retryCount` field attached dynamically by `playSequentialQueue`.  Only the
length of `audioData` matters to the engine's control flow. -/
structure Chunk where
  dataLen : Nat
  sessionId : Option String
  index : Nat
  total : Nat
  retryCount : Nat := 0
deriving Repr, DecidableEq

/-- `audioQueue.sort((a, b) => a.index - b.index)`: stable sort by chunk
index.  JavaScript `Array.prototype.sort` is stable, and all stable sorts
for the same total preorder compute the same function, so the stable
`insertionSort` is a faithful model. -/
def sortByIndex (q : List Chunk) : List Chunk :=
  List.insertionSort (fun a b => a.index ≤ b.index) q

/-- The queue update of `queueAudioChunk` (audioService.ts lines 404-412):
drop the oldest (first) entry when the queue is full, push the new chunk and
re-sort by index. -/
def enqueueChunk (q : List Chunk) (c : Chunk) : List Chunk :=
  let q' := if maxQueueSize ≤ q.length then q.drop 1 else q
  sortByIndex (q' ++ [c])

/-- The loop of `checkAndPlayConsecutiveChunks` (lines 440-454) computing the
longest consecutive run from the lowest index and the maximal gap.
Arguments: remaining sorted chunks, `consecutiveCount`, `expectedIndex`,
`maxGap`. -/
def consecLoop : List Chunk → Nat → Nat → Nat → Nat × Nat
  | [], cc, _, mg => (cc, mg)
  | c :: rest, cc, exp, mg =>
    if c.index = exp then consecLoop rest (cc + 1) (exp + 1) mg
    else if exp < c.index then consecLoop rest 1 (c.index + 1) (max mg (c.index - exp))
    else consecLoop rest cc exp mg

/-- `Set<number>.add`: append the index iff it is not already present. -/
def seenAdd (l : List Nat) (i : Nat) : List Nat :=
  if i ∈ l then l else l ++ [i]

/-- JavaScript strict equality `sessionId === this.currentSessionId` where the
left side is `string | undefined` and the right side is `string | null`:
true only when both are strings and equal (`undefined === null` is false). -/
def sidEq : Option String → Option String → Bool
  | some a, some b => a = b
  | _, _ => false

/-- JavaScript truthiness of `sessionId` (`string | undefined`): false for
`undefined` and for the empty string. -/
def sidTruthy : Option String → Bool
  | some a => a ≠ ""
  | none => false

/-- The mutable fields of `AudioService` that the modelled control flow reads
or writes, plus the bookkeeping fields `loops` (number of
`playSequentialQueue` invocations currently running) and `renders` (log of
chunk indices whose render was started). -/
structure EngineState where
  audioQueue : List Chunk
  isPlayingSequentially : Bool
  currentSessionId : Option String
  sessionChunksSeen : List Nat
  lastChunkTime : Nat
  consecutiveChunkCount : Nat
  sessionStartTime : Nat
  queueStartTime : Option Nat
  lastStuckAudioCheck : Nat
  activeSources : Nat
  currentAudioSource : Bool
  playbackTimeoutId : Bool
  loops : Nat
  renders : List Nat
deriving Repr, DecidableEq

/-- The field initialisers of `AudioService`. -/
def initState : EngineState where
  audioQueue := []
  isPlayingSequentially := false
  currentSessionId := none
  sessionChunksSeen := []
  lastChunkTime := 0
  consecutiveChunkCount := 0
  sessionStartTime := 0
  queueStartTime := none
  lastStuckAudioCheck := 0
  activeSources := 0
  currentAudioSource := false
  playbackTimeoutId := false
  loops := 0
  renders := []

/-- `getQueueWaitTime` (lines 498-503): returns the waiting time and,
as a side effect, initialises `queueStartTime` when it was `null`. -/
def getQueueWaitTime (s : EngineState) (now : Nat) : Nat × EngineState :=
  match s.queueStartTime with
  | none => (0, { s with queueStartTime := some now })
  | some t => (now - t, s)

/-- `stopCurrentAudio` (lines 325-353): stops the current source and every
source of every session, and clears the per-session source lists. -/
def stopCurrentAudio (s : EngineState) : EngineState :=
  { s with activeSources := 0, currentAudioSource := false }

/-- `forceClearAllAudio` (lines 1032-1056): stops and clears all sources
across all sessions.  It does not touch the queue or the session-tracking
fields. -/
def forceClearAllAudio (s : EngineState) : EngineState :=
  { s with activeSources := 0, currentAudioSource := false }

/-- `cleanupSession` (lines 1485-1513): clear session tracking, restart the
session clock, clear the queue only when it is older than
`config.sessionTimeout`, and reset the playback flag and pending timeout. -/
def cleanupSession (s : EngineState) (now : Nat) : EngineState :=
  let s := { s with
    sessionChunksSeen := []
    consecutiveChunkCount := 0
    lastChunkTime := 0
    lastStuckAudioCheck := 0
    sessionStartTime := now }
  let queueAge := (getQueueWaitTime s now).1
  let s := (getQueueWaitTime s now).2
  let s := if sessionTimeout < queueAge then
    { s with audioQueue := [], queueStartTime := none } else s
  { s with isPlayingSequentially := false, playbackTimeoutId := false }

/-- `checkForStuckAudio` (lines 1516-1542): self-throttled to once per
10000 ms; force-clears all audio when sources are active although no chunk
arrived for more than `chunkTimeout * 3` ms.  Returns the new state and the
boolean result. -/
def checkForStuckAudio (s : EngineState) (now : Nat) : EngineState × Bool :=
  if now - s.lastStuckAudioCheck < 10000 then (s, false)
  else
    let timeSinceLastChunk := now - s.lastChunkTime
    if 0 < s.activeSources ∧ chunkTimeout * 3 < timeSinceLastChunk then
      ({ forceClearAllAudio s with lastStuckAudioCheck := now }, true)
    else
      ({ s with lastStuckAudioCheck := now }, false)

/-- The effect of `playAudioChunk` (lines 583-641) on the engine state for a
chunk that decodes successfully: record the arrival time (line 590), skip
entirely when more than 3 sources are active at entry (lines 593-597),
otherwise create and start a new source
(`createAudioSourceAndPlayInternal`, which never stops existing sources).
In the source the entry check and the source creation bracket the awaited
`initAudioContext`/`decodeAudioData` calls; this model fuses them into one
step, i.e. it covers the executions in which no other render starts between
a chunk's admission check and its source creation.  The fusion is used only
to exhibit reachable render interleavings and to count copies of a fragment
— no theorem below derives an upper bound on the number of active sources
from it. -/
def tryRender (s : EngineState) (now : Nat) (c : Chunk) : EngineState :=
  let s := { s with lastChunkTime := now }
  if 3 < s.activeSources then s
  else { s with
    activeSources := s.activeSources + 1
    currentAudioSource := true
    renders := s.renders ++ [c.index] }

/-- The synchronous prefix of `playSequentialQueue` (lines 506-527): guard,
set the playing flag, reset the queue clock, shift the lowest-index chunk and
start its render. -/
def playSequentialStart (s : EngineState) (now : Nat) : EngineState :=
  if s.isPlayingSequentially ∨ s.audioQueue = [] then s
  else
    let s := { s with
      isPlayingSequentially := true
      queueStartTime := none
      loops := s.loops + 1 }
    match s.audioQueue with
    | [] => s
    | c :: rest => tryRender { s with audioQueue := rest } now c

/-- `checkAndPlayConsecutiveChunks` (lines 423-494): analyse the queue and
start sequential playback when one of the five readiness conditions holds. -/
def checkAndPlay (s : EngineState) (now : Nat) : EngineState :=
  if s.isPlayingSequentially ∨ s.audioQueue.length = 0 then s
  else
    let sorted := sortByIndex s.audioQueue
    let analysis := consecLoop sorted 0 ((sorted.head?.map Chunk.index).getD 0) 0
    let consecutiveCount := analysis.1
    let maxGap := analysis.2
    let waitTime := (getQueueWaitTime s now).1
    let s := (getQueueWaitTime s now).2
    let timeSinceLastChunk := now - s.lastChunkTime
    let totalChunksExpected :=
      match sorted.head? with
      | none => 1
      | some c => if c.total = 0 then 1 else c.total
    let shouldStartPlayback :=
      (2 ≤ consecutiveCount ∧ maxGap ≤ 1) ∨
      (500 < waitTime ∧ 2 ≤ s.audioQueue.length) ∨
      3 ≤ s.audioQueue.length ∨
      (timeSinceLastChunk < 100 ∧ 2 ≤ s.consecutiveChunkCount) ∨
      (s.audioQueue.length = totalChunksExpected ∧ totalChunksExpected ≤ 3)
    if shouldStartPlayback then playSequentialStart s now else s

/-- `queueAudioChunk` (lines 400-420): enqueue (with overflow eviction and
re-sort), update the arrival bookkeeping, then run the readiness check. -/
def queueAudioChunk (s : EngineState) (now : Nat) (c : Chunk) : EngineState :=
  let s := { s with
    audioQueue := enqueueChunk s.audioQueue c
    lastChunkTime := now
    consecutiveChunkCount := s.consecutiveChunkCount + 1 }
  checkAndPlay s now

/-- The overlap handler inside `playAudioResponse` (lines 1160-1177):
receiving index 0 again in the current session with chunks already seen is
treated as a new response when more than 2000 ms passed since the last chunk,
and is ignored otherwise. -/
def handleOverlap (s : EngineState) (now : Nat) (sessionId : Option String)
    (index : Nat) : EngineState :=
  if sidEq sessionId s.currentSessionId ∧ index = 0 ∧
      0 < s.sessionChunksSeen.length then
    if 2000 < now - s.lastChunkTime then cleanupSession (stopCurrentAudio s) now
    else s
  else s

/-- The new-session handler inside `playAudioResponse` (lines 1141-1156): a
truthy session id different from the current one stops the running audio
only when nothing is playing and no source is active, switches the current
session id and runs `cleanupSession`. -/
def submitSessionSwitch (s : EngineState) (now : Nat)
    (sessionId : Option String) : EngineState :=
  if sidTruthy sessionId ∧ sessionId ≠ s.currentSessionId then
    let s' := if ¬s.isPlayingSequentially ∧ s.activeSources = 0 then
      stopCurrentAudio s else s
    cleanupSession { s' with currentSessionId := sessionId } now
  else s

/-- The session-timeout handler inside `playAudioResponse` (lines 1180-1187):
a session older than `config.sessionTimeout` with seen chunks is stopped and
cleaned up. -/
def submitSessionTimeout (s : EngineState) (now : Nat) : EngineState :=
  if 0 < s.sessionStartTime ∧ 0 < s.sessionChunksSeen.length ∧
      sessionTimeout < now - s.sessionStartTime then
    cleanupSession (stopCurrentAudio s) now
  else s

/-- The seen-index tracking inside `playAudioResponse` (lines 1194-1198). -/
def submitTrackSeen (s : EngineState) (sessionId : Option String)
    (index : Nat) : EngineState :=
  if sidEq sessionId s.currentSessionId then
    { s with sessionChunksSeen := seenAdd s.sessionChunksSeen index }
  else s

/-- The synchronous body of `playAudioResponse` (lines 1123-1236): new-session
handling, overlap handling, session timeout, stuck-audio check, seen-index
tracking, the guards on pathological inputs, enqueueing and the readiness
check, and arming the playback timeout. -/
def engineSubmit (s : EngineState) (now dataLen index total : Nat)
    (sessionId : Option String) : EngineState :=
  let s1 := submitSessionSwitch s now sessionId
  let s2 := handleOverlap s1 now sessionId index
  let s3 := submitSessionTimeout s2 now
  let s4 := (checkForStuckAudio s3 now).1
  let s5 := submitTrackSeen s4 sessionId index
  if 100 < total ∧ 100 < index then s5
  else if dataLen < 10 then s5
  else
    { queueAudioChunk s5 now ⟨dataLen, sessionId, index, total, 0⟩ with
      playbackTimeoutId := true }

/-- `interrupt` (lines 356-385): stop all audio, clear the queue, reset the
playback flag, the pending timeout and the session-tracking counters. -/
def engineInterrupt (s : EngineState) : EngineState :=
  let s := stopCurrentAudio s
  { s with
    audioQueue := []
    isPlayingSequentially := false
    playbackTimeoutId := false
    sessionStartTime := 0
    consecutiveChunkCount := 0
    lastChunkTime := 0 }

/-- One active source ending (natural `onended` or the forced stop at
`duration + 5000 ms`): the `cleanup` callback (lines 934-965) removes the
source and runs `checkForStuckAudio`; resolving the awaited playback promise
sends the sequential loop into its inter-chunk gap wait (lines 531-535). -/
def renderComplete (s : EngineState) (now : Nat) : EngineState :=
  let s := { s with
    activeSources := s.activeSources - 1
    currentAudioSource := false }
  (checkForStuckAudio s now).1

/-- A sequential pass resuming after its inter-chunk gap (lines 531-535) or
retry backoff (line 548): the `while` loop (line 518) iterates — shift and
render the next chunk, or finish the pass and reset the playing flag and
pending timeout when the queue is empty (lines 555-562). -/
def loopResume (s : EngineState) (now : Nat) : EngineState :=
  if s.loops = 0 then s
  else
    match s.audioQueue with
    | [] => { s with
        loops := s.loops - 1
        isPlayingSequentially := false
        playbackTimeoutId := false }
    | c :: rest => tryRender { s with audioQueue := rest } now c

/-- The externally triggered entry points of the engine: a fragment arriving
over the transport, a render ending, a sequential pass waking from its gap or
backoff wait, an explicit interrupt, and a stuck-audio check invocation. -/
inductive EngineEvent where
  | submit (now dataLen index total : Nat) (sessionId : Option String)
  | renderDone (now : Nat)
  | loopTick (now : Nat)
  | interruptEv (now : Nat)
  | stuckTimer (now : Nat)
deriving Repr, DecidableEq

/-- One step of the engine. -/
def engineStep (s : EngineState) : EngineEvent → EngineState
  | .submit now dataLen index total sessionId =>
      engineSubmit s now dataLen index total sessionId
  | .renderDone now => renderComplete s now
  | .loopTick now => loopResume s now
  | .interruptEv _ => engineInterrupt s
  | .stuckTimer now => (checkForStuckAudio s now).1

/-- Run the engine from its initial state through a sequence of events. -/
def runEngine (evs : List EngineEvent) : EngineState :=
  evs.foldl engineStep initState

/-- The observable shape of a Web Audio `AudioBuffer`: channel count, sample
count and sample rate; `duration = numberOfSamples / sampleRate` seconds. -/
structure AudioBuf where
  numberOfChannels : Nat
  numberOfSamples : Nat
  sampleRate : Nat
deriving Repr, DecidableEq

/-- `AudioBuffer.duration` in seconds. -/
def AudioBuf.duration (b : AudioBuf) : ℚ :=
  (b.numberOfSamples : ℚ) / (b.sampleRate : ℚ)

/-- `detectAudioFormat` (lines 678-716), restricted to its result string:
`"WAV"` when the RIFF/WAVE magic is present (needs ≥ 12 bytes), otherwise
`"OGG_OPUS"` for the `OggS` magic, `"MP3"` for a `0xFF`/`0xEx` frame sync,
and `"unknown"` otherwise.  Out-of-range reads are JavaScript `undefined`,
whose comparisons with numbers are false; `getD i 0` gives the same outcome
for the patterns below on byte values 0-255. -/
def detectAudioFormat (bytes : List Nat) : String :=
  if 12 ≤ bytes.length ∧
      bytes.getD 0 0 = 0x52 ∧ bytes.getD 1 0 = 0x49 ∧
      bytes.getD 2 0 = 0x46 ∧ bytes.getD 3 0 = 0x46 ∧
      bytes.getD 8 0 = 0x57 ∧ bytes.getD 9 0 = 0x41 ∧
      bytes.getD 10 0 = 0x56 ∧ bytes.getD 11 0 = 0x45 then "WAV"
  else if bytes.getD 0 0 = 0x4F ∧ bytes.getD 1 0 = 0x67 ∧
      bytes.getD 2 0 = 0x67 ∧ bytes.getD 3 0 = 0x53 then "OGG_OPUS"
  else if bytes.getD 0 0 = 0xFF ∧ (bytes.getD 1 0) &&& 0xE0 = 0xE0 then "MP3"
  else "unknown"

/-- `String.toLowerCase` for the ASCII format strings in play, written as a
character-by-character map. -/
def strToLower (s : String) : String := ⟨s.data.map Char.toLower⟩

/-- `calculateAdaptivePlaybackRate` (lines 719-744): base rate by
`format.toLowerCase()` (note the detector emits `"OGG_OPUS"`, which matches
none of the cases), then the `performanceMode` adjustment
`min(0.7, baseRate * 1.05)` (`config.performanceMode` is `true`). -/
def calculateAdaptivePlaybackRate (format : String) : ℚ :=
  let lower := strToLower format
  let baseRate : ℚ :=
    if lower = "wav" then 11/20
    else if lower = "mp3" then 1/2
    else if lower = "ogg" then 3/5
    else 1/2
  min (7/10) (baseRate * (21/20))

/-- The playback rate handed to `createAudioSourceAndPlayInternal` for a
fragment with the given raw bytes: `detectAudioFormat` computes it via
`calculateAdaptivePlaybackRate` because `config.adaptivePlayback` is `true`
(lines 708-710), and `playAudioChunk` passes `formatInfo.playbackRate`
through unchanged (line 630). -/
def appliedPlaybackRate (bytes : List Nat) : ℚ :=
  calculateAdaptivePlaybackRate (detectAudioFormat bytes)

/-- Result triple of `calculateAdaptivePlaybackParams` (the `fadeIn`/`fadeOut`
components are omitted; they do not appear in any claim). -/
structure AdaptiveParams where
  playbackRate : ℚ
  volume : ℚ
  delay : ℚ
deriving Repr, DecidableEq

/-- `calculateAdaptivePlaybackParams` (lines 1545-1600) with
`config.adaptiveChunkMode = true`: the size/count-based parameter
computation.  Its result is only logged by `playAudioResponse`
(lines 1133-1136, 1213); it is never passed to a render. -/
def calculateAdaptivePlaybackParams (chunkSizeMs : ℚ) (totalChunks : Nat) :
    AdaptiveParams :=
  let isLargeChunk := 2000 ≤ chunkSizeMs
  let isShortResponse := totalChunks ≤ 3
  let isLongResponse := 10 < totalChunks
  let rate : ℚ := 1/2
  let delay : ℚ := 10
  let rate := if isLargeChunk then min (13/20) ((1:ℚ)/2 * (11/10)) else rate
  let delay := if isLargeChunk then max 2 (delay * (1/2)) else delay
  let rate := if isShortResponse then min (7/10) (rate * (21/20)) else rate
  let delay := if isShortResponse then max 1 (delay * (4/5)) else delay
  let rate := if isLongResponse then max (2/5) (rate * (19/20)) else rate
  let delay := if isLongResponse then min 10 (delay * (6/5)) else delay
  ⟨rate, 9/10, delay⟩

/-- `decodeRawPCM` (lines 815-841): interpret the bytes as 16-bit signed mono
PCM at the audio context's sample rate; `null` when there are no samples.
(For an odd byte count the `Int16Array` construction would throw, ending in
the caller's failure path; only even-length payloads are considered here, on
which the floor division agrees with the source.) -/
def decodeRawPCM (ctxSampleRate : Nat) (bytes : List Nat) : Option AudioBuf :=
  let numberOfSamples := bytes.length / 2
  if numberOfSamples = 0 then none
  else some ⟨1, numberOfSamples, ctxSampleRate⟩

/-- `validateAudioBuffer` (lines 844-854): rejects a buffer whose duration is
below 1 ms or above 10 s.  NOTE: this method is defined but never invoked
anywhere in the repository. -/
def validateAudioBuffer (b : AudioBuf) : Bool :=
  if b.duration < 1/1000 then false
  else if 10 < b.duration then false
  else true

/-- `decodeAudioBuffer` (lines 785-812): container formats go to the host
decoder (`audioContext.decodeAudioData`, modelled by the `hostDecode`
oracle) with a raw-PCM fallback on failure; other bytes go straight to the
raw-PCM interpretation. -/
def decodeAudioBuffer (ctxSampleRate : Nat) (hostDecode : Option AudioBuf)
    (bytes : List Nat) (format : String) : Option AudioBuf :=
  if format = "WAV" ∨ format = "OGG_OPUS" ∨ format = "MP3" then
    match hostDecode with
    | some b => some b
    | none => decodeRawPCM ctxSampleRate bytes
  else decodeRawPCM ctxSampleRate bytes

/-- The decode-to-render pipeline of `playAudioChunk` (lines 583-641): skip
when more than 3 sources are active, validate the base64 input
(`validateAudioData`, length ≥ 10 and well-formed base64), convert, detect,
decode — and hand the resulting buffer directly to
`createAudioSourceAndPlayInternal`.  Returns the buffer that is rendered,
or `none` when the chunk is skipped or fails to decode.  No duration
validation occurs anywhere on this path. -/
def playAudioChunkRenders (ctxSampleRate : Nat) (hostDecode : Option AudioBuf)
    (activeSources b64Len : Nat) (b64Valid : Bool) (bytes : List Nat) :
    Option AudioBuf :=
  if 3 < activeSources then none
  else if b64Len < 10 ∨ ¬b64Valid then none
  else decodeAudioBuffer ctxSampleRate hostDecode bytes
    (detectAudioFormat bytes)

/-- Trace entries of one pass of the sequential playback loop. -/
inductive PlayOutcome where
  /-- A render of the chunk with this index completed successfully. -/
  | success (index : Nat)
  /-- The inter-chunk gap wait (`config.chunkDelay` ms). -/
  | gap (ms : Nat)
  /-- The given attempt (1-based) at this chunk failed. -/
  | fail (index attempt : Nat)
  /-- The backoff wait of `200 * attemptNumber` ms before the retry. -/
  | backoff (ms : Nat)
  /-- The chunk was dropped after exhausting its retries. -/
  | drop (index : Nat)
deriving Repr, DecidableEq

/-- A queue entry as seen by the retry logic: its index, its `retryCount`,
and an oracle `failuresLeft` giving how many more attempts at this chunk
will fail (decode or render errors) before one succeeds. -/
structure RChunk where
  index : Nat
  retryCount : Nat
  failuresLeft : Nat
deriving Repr, DecidableEq

/-- The `while` loop of `playSequentialQueue` (lines 518-553) as a trace of
play outcomes, for a queue that receives no further submissions: shift the
front chunk; on success wait `chunkDelay` and continue; on failure with
`retryCount < maxRetries` re-insert the chunk at the *front* with its retry
count incremented and wait `200 * (retryCount + 1)` ms; otherwise drop it
and continue with the rest. -/
def playSequentialRun : List RChunk → List PlayOutcome
  | [] => []
  | c :: rest =>
    if c.failuresLeft = 0 then
      PlayOutcome.success c.index :: PlayOutcome.gap chunkDelay ::
        playSequentialRun rest
    else if c.retryCount < maxRetries then
      PlayOutcome.fail c.index (c.retryCount + 1) ::
        PlayOutcome.backoff (200 * (c.retryCount + 1)) ::
        playSequentialRun
          ({ index := c.index, retryCount := c.retryCount + 1,
             failuresLeft := c.failuresLeft - 1 } :: rest)
    else
      PlayOutcome.fail c.index (c.retryCount + 1) :: PlayOutcome.drop c.index ::
        playSequentialRun rest
termination_by q => q.length + (q.map (fun c => maxRetries - c.retryCount)).sum
decreasing_by
  all_goals simp_all [maxRetries]
  all_goals omega

instance : IsTotal Chunk (fun a b => a.index ≤ b.index) :=
  ⟨fun a b => Nat.le_total a.index b.index⟩

instance : IsTrans Chunk (fun a b => a.index ≤ b.index) :=
  ⟨fun _ _ _ h1 h2 => Nat.le_trans h1 h2⟩

/-- The queue is sorted by ascending chunk index. -/
def IdxSorted (q : List Chunk) : Prop :=
  List.Sorted (fun a b => a.index ≤ b.index) q

instance (q : List Chunk) : Decidable (IdxSorted q) :=
  inferInstanceAs (Decidable (List.Sorted (fun a b : Chunk => a.index ≤ b.index) q))

/-- The engine is quiescent: empty queue, no sequential pass, no sources. -/
def Quiescent (s : EngineState) : Prop :=
  s.audioQueue = [] ∧ s.isPlayingSequentially = false ∧ s.activeSources = 0

/-- Buffered-or-rendered copies of fragment index `i`. -/
def copiesOf (s : EngineState) (i : Nat) : Nat :=
  s.audioQueue.countP (fun ch => ch.index = i) + s.renders.count i

/-- A 12-byte fragment carrying exactly the RIFF/WAVE magic: detected as WAV.
Its base64 transport encoding has 16 characters, so `playAudioResponse`
estimates its duration as `16 * 0.75 = 12` ms and with `total = 5` fragments
none of the claimed adjustments applies. -/
def wavHeaderBytes : List Nat :=
  [0x52, 0x49, 0x46, 0x46, 0, 0, 0, 0, 0x57, 0x41, 0x56, 0x45]

/-- The playback-rate function claimed by the specification for C4: base rate
by detected format, then the large-fragment, short-response and
long-response adjustments in that order, each independently capped/floored.
This definition follows the claim's words and is compared against the
functions embedded from the source. -/
def specC4Rate (format : String) (estimatedDurationMs : ℚ)
    (totalFragmentCount : Nat) : ℚ :=
  let base : ℚ :=
    if format = "WAV" then 11/20
    else if format = "MP3" then 1/2
    else if format = "OGG" ∨ format = "OGG_OPUS" then 3/5
    else 1/2
  let r := if 2000 ≤ estimatedDurationMs then min (13/20) (base * (11/10)) else base
  let r := if totalFragmentCount ≤ 3 then min (7/10) (r * (21/20)) else r
  if 10 < totalFragmentCount then max (2/5) (r * (19/20)) else r

/-- 20 bytes that match no container magic: interpreted as raw 16-bit PCM
they yield 10 samples, i.e. `10 / 48000 s ≈ 0.21 ms` at a 48 kHz context —
far below the 1 ms corruption threshold. -/
def corruptPCMBytes : List Nat := List.replicate 20 1

/-- A state with two active sources, a hung render (no chunk for 19 s) and a
non-empty queue and seen-set: exactly the situation the stuck-output check
recovers from. -/
def c7StuckState : EngineState :=
  { initState with
    audioQueue := [⟨20, some "s", 0, 2, 0⟩]
    sessionChunksSeen := [0, 1]
    activeSources := 2
    currentAudioSource := true
    lastChunkTime := 1000 }

/-- Scenario B of the spec: session `"s1"` has played fragment 0; fragment 0
re-arrives 2500 ms after the last chunk. -/
def c8State : EngineState :=
  { initState with
    currentSessionId := some "s1"
    sessionChunksSeen := [0]
    lastChunkTime := 1000
    sessionStartTime := 900 }

/-- A state holding only fragment 0 of 4, one arrival since the reset, no
active pass. -/
def c10State : EngineState :=
  { initState with
    audioQueue := [⟨20, some "s", 0, 4, 0⟩]
    consecutiveChunkCount := 1
    lastChunkTime := 900 }

/-- A full queue of 50 fragments with indices 10..59, sorted. -/
def c5FullQueue : List Chunk :=
  (List.range 50).map (fun i => ⟨20, some "s", i + 10, 60, 0⟩)

/-- Claim C1 as stated: in every reachable state at most one output handle
is active. -/
def ClaimC1 : Prop :=
  ∀ evs : List EngineEvent, (runEngine evs).activeSources ≤ 1

/-- A realistic-clock trace reaching two simultaneously active renders:
fragments 0 and 1 of a 3-fragment response for session `"a"` arrive and the
pass starts rendering fragment 0; the render ends and the pass enters its
10 ms inter-chunk gap; during the gap a single-fragment response for session
`"b"` arrives — the new-session handler does not stop anything, but
`cleanupSession` resets `isPlayingSequentially`, so the readiness check
starts a *second* pass that renders fragment `b0`; the first pass then wakes
from its gap and renders the leftover fragment `a1` concurrently. -/
def c1DoubleRenderTrace : List EngineEvent :=
  [.submit 1700000000000 20 0 3 (some "a"),
   .submit 1700000000010 20 1 3 (some "a"),
   .renderDone 1700000002000,
   .submit 1700000002005 20 0 1 (some "b"),
   .loopTick 1700000002010]

/-- First submission of fragment `("s1", 1)` (1 of 3). -/
def c2FirstSubmit : EngineState := engineSubmit initState 1700000000000 20 1 3 (some "s1")

/-- The identical fragment `("s1", 1)` submitted again 1 ms later. -/
def c2SecondSubmit : EngineState := engineSubmit c2FirstSubmit 1700000000001 20 1 3 (some "s1")

/-- A mid-playback state: a single-fragment response for session `"s9"` has
been submitted and its render is active. -/
def c9BusyState : EngineState := engineSubmit initState 1700000000000 20 0 1 (some "s9")

/-! ## Properties -/

theorem sortByIndex_sorted (q : List Chunk) : IdxSorted (sortByIndex q) :=
  List.sorted_insertionSort _ q

theorem sortByIndex_perm (q : List Chunk) : (sortByIndex q).Perm q :=
  List.perm_insertionSort _ q

theorem sortByIndex_length (q : List Chunk) :
    (sortByIndex q).length = q.length :=
  (sortByIndex_perm q).length_eq

theorem detectAudioFormat_cases (bytes : List Nat) :
    detectAudioFormat bytes = "WAV" ∨ detectAudioFormat bytes = "OGG_OPUS" ∨
    detectAudioFormat bytes = "MP3" ∨ detectAudioFormat bytes = "unknown" := by
  unfold detectAudioFormat
  split_ifs <;> simp

theorem getQueueWaitTime_state (s : EngineState) (now : Nat) :
    (getQueueWaitTime s now).2 =
      { s with queueStartTime := (getQueueWaitTime s now).2.queueStartTime } := by
  rw [getQueueWaitTime]
  cases s.queueStartTime <;> rfl

theorem tryRender_playing (s : EngineState) (now : Nat) (c : Chunk) :
    (tryRender s now c).isPlayingSequentially = s.isPlayingSequentially := by
  rw [tryRender]
  split <;> rfl

theorem sidEq_some {a : String} {o : Option String}
    (h : sidEq (some a) o = true) : o = some a := by
  match o with
  | none => simp [sidEq] at h
  | some b =>
      simp only [sidEq, decide_eq_true_eq] at h
      rw [h]

/-- `checkForStuckAudio` either does nothing, only stamps the check time, or
additionally force-clears the sources. -/
theorem checkForStuckAudio_cases (s : EngineState) (now : Nat) :
    (checkForStuckAudio s now).1 = s ∨
    (checkForStuckAudio s now).1 = { s with lastStuckAudioCheck := now } ∨
    (checkForStuckAudio s now).1 =
      { s with activeSources := 0, currentAudioSource := false,
               lastStuckAudioCheck := now } := by
  rw [checkForStuckAudio, forceClearAllAudio]
  by_cases h1 : now - s.lastStuckAudioCheck < 10000
  · rw [if_pos h1]
    exact Or.inl rfl
  · rw [if_neg h1]
    by_cases h2 : 0 < s.activeSources ∧ chunkTimeout * 3 < now - s.lastChunkTime
    · rw [if_pos h2]
      exact Or.inr (Or.inr rfl)
    · rw [if_neg h2]
      exact Or.inr (Or.inl rfl)

theorem cleanupSession_quiescent {s : EngineState} (now : Nat)
    (hq : s.audioQueue = []) (hs : s.activeSources = 0) :
    Quiescent (cleanupSession s now) := by
  rw [cleanupSession, getQueueWaitTime_state]
  split_ifs <;> exact ⟨by simpa using hq, rfl, hs⟩

theorem handleOverlap_quiescent {s : EngineState} (now : Nat)
    (sid : Option String) (i : Nat) (h : Quiescent s) :
    Quiescent (handleOverlap s now sid i) := by
  rw [handleOverlap]
  split_ifs
  · exact cleanupSession_quiescent now h.1 rfl
  · exact h
  · exact h

theorem submitSessionSwitch_quiescent {s : EngineState} (now : Nat)
    (sid : Option String) (h : Quiescent s) :
    Quiescent (submitSessionSwitch s now sid) := by
  rw [submitSessionSwitch]
  split_ifs with h1 h2
  · exact cleanupSession_quiescent now h.1 rfl
  · exact cleanupSession_quiescent now h.1 h.2.2
  · exact h

theorem submitSessionTimeout_quiescent {s : EngineState} (now : Nat)
    (h : Quiescent s) : Quiescent (submitSessionTimeout s now) := by
  rw [submitSessionTimeout]
  split_ifs
  · exact cleanupSession_quiescent now h.1 rfl
  · exact h

theorem checkForStuckAudio_quiescent {s : EngineState} (now : Nat)
    (h : Quiescent s) : Quiescent ((checkForStuckAudio s now).1) := by
  rcases checkForStuckAudio_cases s now with hc | hc | hc <;> rw [hc] <;>
    exact ⟨h.1, h.2.1, by first | exact h.2.2 | rfl⟩

theorem submitTrackSeen_quiescent {s : EngineState} (sid : Option String)
    (i : Nat) (h : Quiescent s) : Quiescent (submitTrackSeen s sid i) := by
  rw [submitTrackSeen]
  split <;> exact ⟨h.1, h.2.1, h.2.2⟩

/-- Enqueueing a fragment with `total = 1` into a quiescent engine starts
playback immediately (the all-chunks-of-a-short-response readiness rule) and
renders it. -/
theorem queueAudioChunk_start_single (s : EngineState) (now : Nat) (c : Chunk)
    (hq : s.audioQueue = []) (hplay : s.isPlayingSequentially = false)
    (hsrc : s.activeSources = 0) (htot : c.total = 1) :
    (queueAudioChunk s now c).isPlayingSequentially = true ∧
    (queueAudioChunk s now c).activeSources = 1 := by
  rw [queueAudioChunk, hq]
  have he : enqueueChunk [] c = [c] := rfl
  rw [he, checkAndPlay]
  simp only []
  rw [if_neg (by simp [hplay])]
  rw [getQueueWaitTime_state]
  rw [if_pos (Or.inr (Or.inr (Or.inr (Or.inr (by simp [sortByIndex, htot])))))]
  rw [playSequentialStart]
  rw [if_neg (by simp [hplay])]
  simp only []
  rw [tryRender]
  rw [if_neg (by simp [hsrc])]
  exact ⟨rfl, by simp [hsrc]⟩

theorem checkAndPlay_copies (s : EngineState) (now i : Nat)
    (hsrc : s.activeSources ≤ 3) :
    copiesOf (checkAndPlay s now) i = copiesOf s i ∧
    (checkAndPlay s now).sessionChunksSeen = s.sessionChunksSeen := by
  rw [checkAndPlay]
  split_ifs with h1
  · exact ⟨rfl, rfl⟩
  · simp only []
    rw [getQueueWaitTime_state]
    split_ifs with h2
    · rw [playSequentialStart]
      split_ifs with h3
      · exact ⟨rfl, rfl⟩
      · simp only []
        rcases hql : s.audioQueue with _ | ⟨c', rest⟩
        · exact absurd (Or.inr (by rw [hql]; rfl)) h1
        · simp only [hql]
          rw [tryRender]
          rw [if_neg (by simp; omega)]
          refine ⟨?_, rfl⟩
          simp only [copiesOf, hql, List.countP_cons, List.count_append]
          by_cases h : c'.index = i <;> simp [h, List.count_singleton] <;> omega
    · exact ⟨rfl, rfl⟩

theorem queueAudioChunk_copies (s : EngineState) (now : Nat) (c : Chunk)
    (hsrc : s.activeSources ≤ 3) (hqlen : s.audioQueue.length < maxQueueSize) :
    copiesOf (queueAudioChunk s now c) c.index = copiesOf s c.index + 1 ∧
    (queueAudioChunk s now c).sessionChunksSeen = s.sessionChunksSeen := by
  rw [queueAudioChunk]
  have h := checkAndPlay_copies
    { s with
      audioQueue := enqueueChunk s.audioQueue c
      lastChunkTime := now
      consecutiveChunkCount := s.consecutiveChunkCount + 1 } now c.index hsrc
  refine ⟨?_, h.2⟩
  rw [h.1]
  have hperm : (enqueueChunk s.audioQueue c).Perm (s.audioQueue ++ [c]) := by
    rw [enqueueChunk, if_neg (by omega)]
    exact sortByIndex_perm _
  simp only [copiesOf]
  rw [hperm.countP_eq]
  simp [List.countP_append]
  omega

/-- C4, counterexample: for a WAV fragment with estimated duration 12 ms and
5 total fragments the claimed rate is the base rate 0.55, but the rate the
engine actually applies when rendering is
`min(0.7, 0.55 * 1.05) = 0.5775` — `calculateAdaptivePlaybackRate` always
applies the `performanceMode` multiplier, and the duration/count-based
adjustments live in `calculateAdaptivePlaybackParams`, whose result is never
passed to a render. -/
theorem c4_counterexample :
    appliedPlaybackRate wavHeaderBytes = 231/400 ∧
    specC4Rate (detectAudioFormat wavHeaderBytes) 12 5 = 11/20 ∧
    appliedPlaybackRate wavHeaderBytes ≠
      specC4Rate (detectAudioFormat wavHeaderBytes) 12 5 := by
  have hdet : detectAudioFormat wavHeaderBytes = "WAV" := by decide
  have hlow : strToLower "WAV" = "wav" := by decide
  refine ⟨?_, ?_, ?_⟩
  · rw [appliedPlaybackRate, calculateAdaptivePlaybackRate, hdet, hlow]
    norm_num [min_def]
  · rw [hdet, specC4Rate]
    norm_num
  · rw [appliedPlaybackRate, calculateAdaptivePlaybackRate, hdet, hlow,
      specC4Rate]
    norm_num [min_def]

/-- C4, amended: the playback rate applied when rendering a fragment is a
function of the detected format alone — `0.5775 = min(0.7, 0.55 * 1.05)`
when the fragment is detected as WAV, and `0.525 = min(0.7, 0.5 * 1.05)` for
every other detection result, including Ogg streams (the detector labels
them `"OGG_OPUS"`, which misses the `'ogg'` case of the rate switch); the
estimated fragment duration and the total fragment count do not influence
it, because `calculateAdaptivePlaybackParams` is computed but only logged. -/
theorem c4_amended (bytes : List Nat) (estimatedDurationMs : ℚ)
    (totalFragmentCount : Nat) :
    appliedPlaybackRate bytes =
      (if detectAudioFormat bytes = "WAV" then 231/400 else 21/40) ∧
    appliedPlaybackRate bytes =
      calculateAdaptivePlaybackRate (detectAudioFormat bytes) := by
  refine ⟨?_, rfl⟩
  rcases detectAudioFormat_cases bytes with h | h | h | h <;>
    rw [appliedPlaybackRate, calculateAdaptivePlaybackRate, h] <;>
    · simp +decide
      norm_num [min_def]

/-- C3, code bug: a fragment decoding to a buffer of duration `< 1 ms`
(here `10 / 48000 s`) is *not* rejected — `playAudioChunk` hands the buffer
straight to `createAudioSourceAndPlayInternal`.  The guard the claim
describes exists verbatim as `validateAudioBuffer` (and indeed rejects this
buffer), but that method is never invoked anywhere in the repository. -/
theorem c3_code_bug :
    playAudioChunkRenders 48000 none 0 28 true corruptPCMBytes =
      some ⟨1, 10, 48000⟩ ∧
    (⟨1, 10, 48000⟩ : AudioBuf).duration < 1/1000 ∧
    validateAudioBuffer ⟨1, 10, 48000⟩ = false := by
  refine ⟨by decide, by norm_num [AudioBuf.duration], ?_⟩
  rw [validateAudioBuffer]
  norm_num [AudioBuf.duration]

/-- C6: a fragment whose render keeps failing is attempted once and retried
exactly 3 more times, re-inserted at the front of the queue with backoffs of
200 ms, 400 ms and 600 ms (`200 * attemptNumber`), then dropped, after which
the loop continues with the rest of the queue unchanged — so a persistently
failing fragment never stalls the remaining fragments.  Moreover no backoff
ever exceeds `200 * 3` ms, i.e. no fragment is ever retried more than
3 times. -/
theorem c6_retry_policy (i fl : Nat) (rest : List RChunk) :
    playSequentialRun (⟨i, 0, fl + 4⟩ :: rest) =
      [PlayOutcome.fail i 1, PlayOutcome.backoff 200,
       PlayOutcome.fail i 2, PlayOutcome.backoff 400,
       PlayOutcome.fail i 3, PlayOutcome.backoff 600,
       PlayOutcome.fail i 4, PlayOutcome.drop i]
        ++ playSequentialRun rest ∧
    (∀ (q : List RChunk) (ms : Nat),
      PlayOutcome.backoff ms ∈ playSequentialRun q → ms ≤ 600) := by
  constructor
  · simp [playSequentialRun, maxRetries]
  · intro q
    induction q using playSequentialRun.induct with
    | case1 => simp [playSequentialRun]
    | case2 c rest h ih =>
        intro ms hm
        rw [playSequentialRun] at hm
        simp only [if_pos h] at hm
        simp at hm
        exact ih ms hm
    | case3 c rest h1 h2 ih =>
        intro ms hm
        rw [playSequentialRun] at hm
        simp only [if_neg h1, if_pos h2] at hm
        simp at hm
        rcases hm with hm | hm
        · have h3 : c.retryCount < 3 := h2
          omega
        · exact ih ms hm
    | case4 c rest h1 h2 ih =>
        intro ms hm
        rw [playSequentialRun] at hm
        simp only [if_neg h1, if_neg h2] at hm
        simp at hm
        exact ih ms hm

/-- C7, counterexample: when the stuck check fires it force-stops all active
sources, but it does *not* clear the session and queue state — the reorder
queue and the seen-index set survive untouched (`checkForStuckAudio` calls
only `forceClearAllAudio`, never `cleanupSession`). -/
theorem c7_counterexample :
    (checkForStuckAudio c7StuckState 20000).2 = true ∧
    (checkForStuckAudio c7StuckState 20000).1.activeSources = 0 ∧
    (checkForStuckAudio c7StuckState 20000).1.audioQueue ≠ [] ∧
    (checkForStuckAudio c7StuckState 20000).1.sessionChunksSeen ≠ [] := by
  decide

/-- C7, amended: the stuck check is throttled to at most once per 10000 ms
(within the cooldown it does nothing and reports false); when it runs and
finds active sources with more than `3 * chunkTimeout` (15000) ms since the
last fragment arrival, it force-stops all active output handles and clears
the source tracking, but leaves the reorder queue and the session's
seen-index state unchanged. -/
theorem c7_amended (s : EngineState) (now : Nat)
    (hcool : 10000 ≤ now - s.lastStuckAudioCheck)
    (hact : 0 < s.activeSources)
    (hstale : chunkTimeout * 3 < now - s.lastChunkTime) :
    (checkForStuckAudio s now).2 = true ∧
    (checkForStuckAudio s now).1.activeSources = 0 ∧
    (checkForStuckAudio s now).1.currentAudioSource = false ∧
    (checkForStuckAudio s now).1.audioQueue = s.audioQueue ∧
    (checkForStuckAudio s now).1.sessionChunksSeen = s.sessionChunksSeen ∧
    (checkForStuckAudio s now).1.lastStuckAudioCheck = now ∧
    (∀ (s' : EngineState) (now' : Nat), now' - s'.lastStuckAudioCheck < 10000 →
      checkForStuckAudio s' now' = (s', false)) := by
  have hc : ¬(now - s.lastStuckAudioCheck < 10000) := by omega
  rw [checkForStuckAudio, if_neg hc, if_pos ⟨hact, hstale⟩]
  refine ⟨rfl, rfl, rfl, rfl, rfl, rfl, ?_⟩
  intro s' now' h
  rw [checkForStuckAudio, if_pos h]

/-- C8: receiving fragment index 0 again for the current session while seen
indices exist is treated as a new response when more than 2000 ms passed
since the last fragment: the current output is stopped and the session state
cleared (seen indices emptied, playback flag reset, session clock restarted);
with a gap of at most 2000 ms the engine state is left unchanged and the
current stream keeps playing. -/
theorem c8_overlap (s : EngineState) (now : Nat) (sid : String)
    (hsid : sidEq (some sid) s.currentSessionId = true)
    (hseen : s.sessionChunksSeen ≠ []) :
    (2000 < now - s.lastChunkTime →
      (handleOverlap s now (some sid) 0).activeSources = 0 ∧
      (handleOverlap s now (some sid) 0).currentAudioSource = false ∧
      (handleOverlap s now (some sid) 0).sessionChunksSeen = [] ∧
      (handleOverlap s now (some sid) 0).isPlayingSequentially = false ∧
      (handleOverlap s now (some sid) 0).consecutiveChunkCount = 0 ∧
      (handleOverlap s now (some sid) 0).sessionStartTime = now) ∧
    (now - s.lastChunkTime ≤ 2000 → handleOverlap s now (some sid) 0 = s) := by
  have hlen : 0 < s.sessionChunksSeen.length := List.length_pos.mpr hseen
  constructor
  · intro hgap
    rw [handleOverlap, if_pos ⟨hsid, rfl, hlen⟩, if_pos hgap]
    rw [cleanupSession, stopCurrentAudio, getQueueWaitTime]
    cases s.queueStartTime <;> simp <;> split <;> simp
  · intro hgap
    rw [handleOverlap, if_pos ⟨hsid, rfl, hlen⟩, if_neg (by omega)]

/-- Witness for C8: at `now = 3500` the 2500 ms gap exceeds the 2000 ms
threshold, so the overlap is treated as a new response. -/
theorem c8_overlap_witness :
    (sidEq (some "s1") c8State.currentSessionId = true ∧
      c8State.sessionChunksSeen ≠ []) ∧
    ((2000 < 3500 - c8State.lastChunkTime →
      (handleOverlap c8State 3500 (some "s1") 0).activeSources = 0 ∧
      (handleOverlap c8State 3500 (some "s1") 0).currentAudioSource = false ∧
      (handleOverlap c8State 3500 (some "s1") 0).sessionChunksSeen = [] ∧
      (handleOverlap c8State 3500 (some "s1") 0).isPlayingSequentially = false ∧
      (handleOverlap c8State 3500 (some "s1") 0).consecutiveChunkCount = 0 ∧
      (handleOverlap c8State 3500 (some "s1") 0).sessionStartTime = 3500) ∧
    (3500 - c8State.lastChunkTime ≤ 2000 →
      handleOverlap c8State 3500 (some "s1") 0 = c8State)) :=
  ⟨⟨by decide, by decide⟩, c8_overlap c8State 3500 "s1" (by decide) (by decide)⟩

/-- C10: when no sequential playback is active and the engine has already
received a fragment since the last reset (`consecutiveChunkCount ≥ 1`),
any further submit passes the readiness check synchronously: `queueAudioChunk`
sets the last-arrival timestamp to the current time immediately before
`checkAndPlayConsecutiveChunks` runs, so the time-since-last-arrival term is
0 (< 100 ms) and the incremented consecutive-arrival count is ≥ 2 — playback
starts regardless of index gaps, the 500 ms wait timer or the total fragment
count. -/
theorem c10_readiness (s : EngineState) (now : Nat) (c : Chunk)
    (hplay : s.isPlayingSequentially = false)
    (hcnt : 1 ≤ s.consecutiveChunkCount)
    (hq : 1 ≤ s.audioQueue.length) :
    (queueAudioChunk s now c).isPlayingSequentially = true := by
  rw [queueAudioChunk, checkAndPlay]
  have hlen : (enqueueChunk s.audioQueue c).length ≠ 0 := by
    rw [enqueueChunk]
    simp only [sortByIndex]
    rw [List.length_insertionSort]
    simp
  rw [if_neg (by simp [hplay, hlen])]
  simp only []
  rw [getQueueWaitTime_state]
  rw [if_pos (Or.inr (Or.inr (Or.inr (Or.inl
    ⟨by simp only []; omega, by simp only []; omega⟩))))]
  have hne : enqueueChunk s.audioQueue c ≠ [] := by
    intro h
    exact hlen (by rw [h]; rfl)
  rw [playSequentialStart]
  rw [if_neg (by simp only []; simp [hplay, hne])]
  cases hq2 : (enqueueChunk s.audioQueue c) with
  | nil => exact absurd (by rw [hq2]; rfl) hlen
  | cons c' rest => simp [hq2, tryRender_playing]

/-- Witness for C10: submitting fragment 3 of 4 (leaving the gap 1-2 open,
with the 500 ms timer not elapsed and 2 of 4 fragments buffered) still
starts playback. -/
theorem c10_readiness_witness :
    (c10State.isPlayingSequentially = false ∧
      1 ≤ c10State.consecutiveChunkCount ∧ 1 ≤ c10State.audioQueue.length) ∧
    (queueAudioChunk c10State 1000 ⟨20, some "s", 3, 4, 0⟩).isPlayingSequentially
      = true :=
  ⟨⟨rfl, by decide, by decide⟩,
    c10_readiness c10State 1000 ⟨20, some "s", 3, 4, 0⟩ rfl (by decide)
      (by decide)⟩

set_option maxRecDepth 40000 in
/-- C5: for a sorted queue within capacity, a submit keeps the queue sorted
by ascending index and within the 50-entry capacity; when the queue is full
the result is a permutation of the queue without its first entry plus the
new chunk, and that first entry has the lowest buffered index; 60 rapid
submissions of distinct fragments into an empty queue leave exactly 50. -/
theorem c5_capacity (q : List Chunk) (c : Chunk)
    (hs : IdxSorted q) (hlen : q.length ≤ maxQueueSize) :
    IdxSorted (enqueueChunk q c) ∧
    (enqueueChunk q c).length ≤ maxQueueSize ∧
    (q.length = maxQueueSize →
      (enqueueChunk q c).Perm (q.tail ++ [c]) ∧
      ∀ x ∈ q, ∀ h0 : Chunk, q.head? = some h0 → h0.index ≤ x.index) ∧
    ((List.range 60).foldl
        (fun acc i => enqueueChunk acc ⟨20, some "s", i, 60, 0⟩) []).length
      = 50 := by
  refine ⟨sortByIndex_sorted _, ?_, ?_, by decide⟩
  · rw [enqueueChunk]
    simp only [sortByIndex]
    rw [List.length_insertionSort]
    split_ifs with h <;> simp [maxQueueSize] at * <;> omega
  · intro h50
    constructor
    · rw [enqueueChunk, if_pos (by omega), List.drop_one]
      exact sortByIndex_perm _
    · intro x hx h0 hh0
      match q, hh0 with
      | h0 :: t, rfl =>
        rcases List.mem_cons.mp hx with rfl | hx
        · exact Nat.le_refl _
        · exact List.rel_of_sorted_cons hs x hx

set_option maxRecDepth 40000 in
/-- Witness for C5: submitting one more fragment into the full sorted queue
keeps it sorted at length 50, evicting the lowest-index entry. -/
theorem c5_capacity_witness :
    (IdxSorted c5FullQueue ∧ c5FullQueue.length ≤ maxQueueSize) ∧
    (IdxSorted (enqueueChunk c5FullQueue ⟨20, some "s", 60, 61, 0⟩) ∧
    (enqueueChunk c5FullQueue ⟨20, some "s", 60, 61, 0⟩).length ≤ maxQueueSize ∧
    (c5FullQueue.length = maxQueueSize →
      (enqueueChunk c5FullQueue ⟨20, some "s", 60, 61, 0⟩).Perm
        (c5FullQueue.tail ++ [⟨20, some "s", 60, 61, 0⟩]) ∧
      ∀ x ∈ c5FullQueue, ∀ h0 : Chunk, c5FullQueue.head? = some h0 →
        h0.index ≤ x.index) ∧
    ((List.range 60).foldl
        (fun acc i => enqueueChunk acc ⟨20, some "s", i, 60, 0⟩) []).length
      = 50) :=
  ⟨⟨by decide, by decide⟩,
    c5_capacity c5FullQueue ⟨20, some "s", 60, 61, 0⟩ (by decide) (by decide)⟩

/-- Witness for C7 (amended): the stuck state above at `now = 20000`
satisfies every hypothesis, and the theorem's conclusions follow. -/
theorem c7_amended_witness :
    (10000 ≤ 20000 - c7StuckState.lastStuckAudioCheck ∧
      0 < c7StuckState.activeSources ∧
      chunkTimeout * 3 < 20000 - c7StuckState.lastChunkTime) ∧
    (checkForStuckAudio c7StuckState 20000).2 = true ∧
    (checkForStuckAudio c7StuckState 20000).1.activeSources = 0 ∧
    (checkForStuckAudio c7StuckState 20000).1.audioQueue =
      c7StuckState.audioQueue := by
  refine ⟨by decide, ?_⟩
  have h := c7_amended c7StuckState 20000 (by decide) (by decide) (by decide)
  exact ⟨h.1, h.2.1, h.2.2.2.1⟩

/-- C1: the single-active-output "hard invariant" is violated by the code.
On `c1DoubleRenderTrace` the engine reaches a state with two simultaneously
active output handles, the second render having started before the first
completed or was cancelled (no render-completion, interrupt or force-stop
occurs in the trace) — even though the engine's own configuration declares
`maxConcurrentSources: 1` ("Only allow 1 source at a time", line 40) and
`strictSequential: true` (line 39), neither of which is ever read, and its
health check classifies more than one active source as an error
(lines 198-201).  The claim states the intent the code itself documents;
the missing enforcement is the bug. -/
theorem c1_counterexample :
    (runEngine c1DoubleRenderTrace).activeSources = 2 ∧
    (runEngine [EngineEvent.submit 1700000000000 20 0 1
      (some "a")]).activeSources = 1 ∧
    ¬ClaimC1 := by
  refine ⟨by decide, by decide, ?_⟩
  intro h
  exact absurd (h c1DoubleRenderTrace) (by decide)

-- C2

/-- C2, counterexample: resubmitting the already-seen pair `("s1", 1)` is not
a no-op — the duplicate is enqueued again (no dedup in `queueAudioChunk`),
the readiness check fires, and the engine starts rendering fragment 1 a
second time; the resulting state differs from the state after the first
submission. -/
theorem c2_counterexample :
    c2FirstSubmit.renders = [] ∧
    c2FirstSubmit.audioQueue = [⟨20, some "s1", 1, 3, 0⟩] ∧
    c2SecondSubmit.renders = [1] ∧
    c2SecondSubmit.audioQueue = [⟨20, some "s1", 1, 3, 0⟩] ∧
    c2SecondSubmit.isPlayingSequentially = true ∧
    c2SecondSubmit ≠ c2FirstSubmit := by
  decide

/-- C2, amended: resubmitting an already-seen `(sessionId, index)` pair for
the current session leaves the seen-index tracking unchanged (`Set.add` is
idempotent), but it is not a no-op on the rest of the engine: the fragment
is enqueued again, so the number of buffered-plus-rendered copies of that
index increases by one and the duplicate can render a second time.
(Stated for a non-overlap index `≠ 0`, a session within its 10 s timeout, a
valid payload, a non-full queue and at most 3 active sources, so that no
other handler consumes the duplicate first.) -/
theorem c2_amended (s : EngineState) (now dataLen index total : Nat)
    (sid : String)
    (hsid : sidEq (some sid) s.currentSessionId = true)
    (hseen : index ∈ s.sessionChunksSeen)
    (hidx : index ≠ 0)
    (hage : now - s.sessionStartTime ≤ sessionTimeout)
    (hdl : 10 ≤ dataLen) (htot : total ≤ 100)
    (hqlen : s.audioQueue.length < maxQueueSize)
    (hsrc : s.activeSources ≤ 3) :
    (engineSubmit s now dataLen index total (some sid)).sessionChunksSeen =
      s.sessionChunksSeen ∧
    copiesOf (engineSubmit s now dataLen index total (some sid)) index =
      copiesOf s index + 1 := by
  have hcs : s.currentSessionId = some sid := sidEq_some hsid
  rw [engineSubmit]
  simp only []
  rw [if_neg (by omega), if_neg (by omega)]
  rw [submitSessionSwitch, if_neg (by simp [hcs])]
  rw [handleOverlap, if_neg (by simp [hidx])]
  rw [submitSessionTimeout, if_neg (by rintro ⟨-, -, h3⟩; omega)]
  rcases checkForStuckAudio_cases s now with h4 | h4 | h4 <;>
      rw [h4, submitTrackSeen, if_pos (by simp [hcs, sidEq]), seenAdd,
        if_pos (by exact hseen)]
  · have hq := queueAudioChunk_copies s now
      ⟨dataLen, some sid, index, total, 0⟩ hsrc hqlen
    exact ⟨hq.2, hq.1⟩
  · have hq := queueAudioChunk_copies { s with lastStuckAudioCheck := now } now
      ⟨dataLen, some sid, index, total, 0⟩ hsrc hqlen
    exact ⟨hq.2, hq.1⟩
  · have hq := queueAudioChunk_copies { s with activeSources := 0, currentAudioSource := false, lastStuckAudioCheck := now } now
      ⟨dataLen, some sid, index, total, 0⟩ (Nat.zero_le 3) hqlen
    exact ⟨hq.2, hq.1⟩

-- C9

/-- C9: calling `interrupt()` in any state terminates the active output
handles (0 active sources, no current source), empties the queue, resets the
playback-active flag and the pending playback timeout (in the embedding
`interrupt` is a total function, mirroring that every `stop()` call is
wrapped in try/catch and the method never throws); a subsequent `submit()` of
a new response then starts a fresh playback sequence (playing flag set, one
active render). -/
theorem c9_interrupt (s : EngineState) (now dataLen : Nat) (sid : String)
    (hdl : 10 ≤ dataLen) :
    (engineInterrupt s).audioQueue = [] ∧
    (engineInterrupt s).isPlayingSequentially = false ∧
    (engineInterrupt s).activeSources = 0 ∧
    (engineInterrupt s).currentAudioSource = false ∧
    (engineInterrupt s).playbackTimeoutId = false ∧
    (engineSubmit (engineInterrupt s) now dataLen 0 1
      (some sid)).isPlayingSequentially = true ∧
    (engineSubmit (engineInterrupt s) now dataLen 0 1
      (some sid)).activeSources = 1 := by
  have h0 : Quiescent (engineInterrupt s) := ⟨rfl, rfl, rfl⟩
  have h5 : Quiescent (submitTrackSeen ((checkForStuckAudio
      (submitSessionTimeout (handleOverlap (submitSessionSwitch
        (engineInterrupt s) now (some sid)) now (some sid) 0) now) now).1)
      (some sid) 0) :=
    submitTrackSeen_quiescent _ _ (checkForStuckAudio_quiescent _
      (submitSessionTimeout_quiescent _ (handleOverlap_quiescent _ _ _
        (submitSessionSwitch_quiescent _ _ h0))))
  have hq := queueAudioChunk_start_single _ now ⟨dataLen, some sid, 0, 1, 0⟩
    h5.1 h5.2.1 h5.2.2 rfl
  refine ⟨rfl, rfl, rfl, rfl, rfl, ?_, ?_⟩ <;>
  · rw [engineSubmit]
    simp only []
    rw [if_neg (by omega), if_neg (by omega)]
    first
      | exact hq.1
      | exact hq.2

/-- Witness for C2 (amended): resubmitting `("s1", 1)` to the state after its
first submission satisfies every hypothesis; the seen set is unchanged and
the copy count of index 1 rises from 1 to 2. -/
theorem c2_amended_witness :
    (sidEq (some "s1") c2FirstSubmit.currentSessionId = true ∧
      1 ∈ c2FirstSubmit.sessionChunksSeen ∧ (1 : Nat) ≠ 0 ∧
      1700000000001 - c2FirstSubmit.sessionStartTime ≤ sessionTimeout ∧
      (10 : Nat) ≤ 20 ∧ (3 : Nat) ≤ 100 ∧
      c2FirstSubmit.audioQueue.length < maxQueueSize ∧
      c2FirstSubmit.activeSources ≤ 3) ∧
    ((engineSubmit c2FirstSubmit 1700000000001 20 1 3 (some "s1")).sessionChunksSeen =
      c2FirstSubmit.sessionChunksSeen ∧
    copiesOf (engineSubmit c2FirstSubmit 1700000000001 20 1 3 (some "s1")) 1 =
      copiesOf c2FirstSubmit 1 + 1) :=
  ⟨by decide,
    c2_amended c2FirstSubmit 1700000000001 20 1 3 "s1" (by decide) (by decide)
      (by decide) (by decide) (by decide) (by decide) (by decide) (by decide)⟩

/-- Witness for C9: interrupting the mid-playback state `c9BusyState` leaves
a fully cleared engine, and a subsequent submit starts a fresh sequence. -/
theorem c9_interrupt_witness :
    (10 : Nat) ≤ 20 ∧
    ((engineInterrupt c9BusyState).audioQueue = [] ∧
    (engineInterrupt c9BusyState).isPlayingSequentially = false ∧
    (engineInterrupt c9BusyState).activeSources = 0 ∧
    (engineInterrupt c9BusyState).currentAudioSource = false ∧
    (engineInterrupt c9BusyState).playbackTimeoutId = false ∧
    (engineSubmit (engineInterrupt c9BusyState) 1700000005000 20 0 1
      (some "s10")).isPlayingSequentially = true ∧
    (engineSubmit (engineInterrupt c9BusyState) 1700000005000 20 0 1
      (some "s10")).activeSources = 1) :=
  ⟨by decide, c9_interrupt c9BusyState 1700000005000 20 "s10" (by decide)⟩

end AudioService
